import Mathlib

/-!
Shallow embedding of `src/decoder/ffmpeg.cpp` (decord FFMPEG video reader).

The embedding models the data the decode pipeline manipulates:
`DLDataType` / pixel formats / `FrameTransform` (the frame format
descriptor), the `SwsContext` cache inside `FFMPEGVideoReader`, stream
selection (`SetVideoStream`), and the packet-reading decode loop
(`NextFrame`).  External collaborators (FFMPEG demux/decode, the NDArray
runtime) are modeled abstractly: a packet carries its stream index and an
oracle bit recording whether `avcodec_decode_video2` reports a completed
picture for it; the decoder's mutable state is modeled as the log of
packets submitted to it; a native `SwsContext` allocation is modeled by
its construction parameters plus a fresh allocation id drawn from a
counter, so that distinct native allocations are distinguishable.

`LOG(FATAL)` / failed `CHECK` aborts are modeled as `Option.none`
(fallible construction), following the source's fatal-error style.
-/

/-- DLPack-style data type triple (code, bits, lanes), compared structurally
as `dtype == kUInt8` etc. in the source. -/
structure DLDataType where
  code : Nat
  bits : Nat
  lanes : Nat
deriving DecidableEq, Repr

/-- 8-bit unsigned integer element type (DLPack code 1 = uint). -/
def kUInt8 : DLDataType := ⟨1, 8, 1⟩

/-- 16-bit unsigned integer element type. -/
def kUInt16 : DLDataType := ⟨1, 16, 1⟩

/-- 16-bit floating point element type (DLPack code 2 = float). -/
def kFloat16 : DLDataType := ⟨2, 16, 1⟩

/-- The native pixel layouts the source mentions. -/
inductive AVPixelFormat where
  | AV_PIX_FMT_RGB24
  | AV_PIX_FMT_GRAY8
  | AV_PIX_FMT_RGB48
  | AV_PIX_FMT_GRAY16
  | AV_PIX_FMT_YUV420P
deriving DecidableEq, Repr

/-- Channel count of each modeled native pixel layout. -/
def AVPixelFormat.channels : AVPixelFormat → Nat
  | .AV_PIX_FMT_RGB24 => 3
  | .AV_PIX_FMT_RGB48 => 3
  | .AV_PIX_FMT_GRAY8 => 1
  | .AV_PIX_FMT_GRAY16 => 1
  | .AV_PIX_FMT_YUV420P => 3

/-- Bits per channel of each modeled native pixel layout. -/
def AVPixelFormat.bitsPerChannel : AVPixelFormat → Nat
  | .AV_PIX_FMT_RGB24 => 8
  | .AV_PIX_FMT_RGB48 => 16
  | .AV_PIX_FMT_GRAY8 => 8
  | .AV_PIX_FMT_GRAY16 => 16
  | .AV_PIX_FMT_YUV420P => 8

/-- Frame format descriptor (`struct FrameTransform`): target height, width,
channel count and interpolation, plus the derived native layout `fmt`. -/
structure FrameTransform where
  height : Nat
  width : Nat
  channel : Nat
  interp : Int
  fmt : AVPixelFormat
deriving DecidableEq, Repr

/-- The `FrameTransform` constructor.  The source checks
`CHECK(c == 3 || c == 1)` and then maps the dtype to a native layout,
with `LOG(FATAL)` (modeled as `none`) for any other dtype.  The
`kFloat16` branch reuses the `kUInt16` layouts ("use fp16 and cast
later"). -/
def mkFrameTransform (dtype : DLDataType) (h w c : Nat) (interp : Int) :
    Option FrameTransform :=
  if c = 3 ∨ c = 1 then
    if dtype = kUInt8 then
      some ⟨h, w, c, interp,
        if c = 3 then .AV_PIX_FMT_RGB24 else .AV_PIX_FMT_GRAY8⟩
    else if dtype = kUInt16 then
      some ⟨h, w, c, interp,
        if c = 3 then .AV_PIX_FMT_RGB48 else .AV_PIX_FMT_GRAY16⟩
    else if dtype = kFloat16 then
      some ⟨h, w, c, interp,
        if c = 3 then .AV_PIX_FMT_RGB48 else .AV_PIX_FMT_GRAY16⟩
    else
      none
  else
    none

/-- Device kinds of the array runtime (only `kCPU` is used by the source). -/
inductive DLDeviceType where
  | kCPU
  | kGPU
deriving DecidableEq, Repr

/-- Model of an NDArray handle from the array runtime: shape, dtype, device
and the pixel payload currently stored in its buffer. -/
structure NDArray where
  shape : List Int
  dtype : DLDataType
  device : DLDeviceType
  data : List Nat
deriving DecidableEq, Repr

/-- Model of `NDArray::Empty(shape, dtype, device)`: a freshly allocated
array with an unwritten buffer. -/
def NDArray.Empty (shape : List Int) (dtype : DLDataType)
    (device : DLDeviceType) : NDArray :=
  ⟨shape, dtype, device, []⟩

/-- Media type of an elementary stream (`codecpar->codec_type`). -/
inductive AVMediaType where
  | AVMEDIA_TYPE_VIDEO
  | AVMEDIA_TYPE_AUDIO
  | AVMEDIA_TYPE_SUBTITLE
  | AVMEDIA_TYPE_UNKNOWN
deriving DecidableEq, Repr

/-- Model of one elementary stream in the container: its media type and
whether `avcodec_find_decoder(codecpar->codec_id)` resolves a decoder. -/
structure AVStream where
  codec_type : AVMediaType
  has_decoder : Bool
deriving DecidableEq, Repr

/-- The `codecs_` vector built by the reader constructor: for each stream,
the stored codec is non-NULL exactly when the stream is video and its
decoder resolves (non-video streams get NULL stored). -/
def buildCodecs (streams : List AVStream) : List Bool :=
  streams.map (fun st =>
    st.codec_type == AVMediaType.AVMEDIA_TYPE_VIDEO && st.has_decoder)

/-- Index of the first video stream, if any. -/
def firstVideoIdx : List AVStream → Option Nat
  | [] => none
  | st :: rest =>
    if st.codec_type = AVMediaType.AVMEDIA_TYPE_VIDEO then some 0
    else (firstVideoIdx rest).map (· + 1)

/-- Model of the external library call
`av_find_best_stream(fmt_ctx, AVMEDIA_TYPE_VIDEO, wanted_stream_nb, -1, NULL, 0)`:
with `wanted_stream_nb < 0` it picks the library's best video stream
(modeled as the first video stream); with an explicit wanted index it
returns that index when it names a video stream and an error (negative)
otherwise.  The source only ever calls it with `wanted_stream_nb = -1`. -/
def av_find_best_stream (streams : List AVStream)
    (wanted_stream_nb : Int) : Int :=
  if wanted_stream_nb < 0 then
    match firstVideoIdx streams with
    | some i => (i : Int)
    | none => -1
  else
    match streams.get? wanted_stream_nb.toNat with
    | some st =>
      if st.codec_type = AVMediaType.AVMEDIA_TYPE_VIDEO then wanted_stream_nb
      else -1
    | none => -1

/-- Model of one compressed packet read by `av_read_frame`: its stream
index, plus an oracle bit recording whether `avcodec_decode_video2`
reports a completed picture when this packet is submitted. -/
structure AVPacket where
  stream_index : Int
  got_picture : Bool
deriving DecidableEq, Repr

/-- Model of a native `SwsContext`: the parameters `sws_getContext` was
called with, plus a fresh allocation id distinguishing distinct native
allocations. -/
structure SwsContext where
  srcWidth : Int
  srcHeight : Int
  srcFmt : AVPixelFormat
  dstWidth : Nat
  dstHeight : Nat
  dstFmt : AVPixelFormat
  interp : Int
  id : Nat
deriving DecidableEq, Repr

/-- Association-list lookup modeling `sws_ctx_map_.find(out_fmt)`:
`none` models the end iterator. -/
def lookupCtx (m : List (FrameTransform × SwsContext))
    (k : FrameTransform) : Option SwsContext :=
  match m with
  | [] => none
  | (k1, v) :: rest => if k1 = k then some v else lookupCtx rest k

/-- Map assignment modeling `sws_ctx_map_[out_fmt] = ctx` (insert or
overwrite). -/
def updateCtx (m : List (FrameTransform × SwsContext))
    (k : FrameTransform) (v : SwsContext) :
    List (FrameTransform × SwsContext) :=
  match m with
  | [] => [(k, v)]
  | (k1, v1) :: rest =>
    if k1 = k then (k1, v) :: rest else (k1, v1) :: updateCtx rest k v

/-- Model of the `FFMPEGVideoReader` session state: the container's
remaining packets (`fmt_ctx_` read position), the stream table and
`codecs_` vector, the active stream index, the decoder context's reported
dimensions and pixel format, the log of packets submitted to the decoder
(its mutable decode state), the `out_fmt` member used by `NextFrame`, and
the `sws_ctx_map_` cache together with the allocation counter for fresh
native contexts. -/
structure FFMPEGVideoReader where
  packets : List AVPacket
  streams : List AVStream
  codecs : List Bool
  actv_stm_idx : Int
  dec_height : Int
  dec_width : Int
  dec_channels : Int
  dec_pix_fmt : AVPixelFormat
  dec_log : List AVPacket
  out_fmt : FrameTransform
  sws_ctx_map : List (FrameTransform × SwsContext)
  next_ctx_id : Nat
deriving DecidableEq, Repr

/-- `FFMPEGVideoReader::GetSwsContext`, exactly as written in the source:
`find` the descriptor; if the iterator equals `end()` (key absent) the
code takes the branch commented "already initialized sws context" and
returns `sws_ctx->second` — a dereference of the end iterator, which
yields no valid context (modeled as `none`) and caches nothing; otherwise
(key present) it takes the branch commented "create new sws context",
builds a fresh native context from the decoder's source dimensions and
the descriptor's target parameters, stores it under the descriptor and
returns it. -/
def FFMPEGVideoReader.GetSwsContext (s : FFMPEGVideoReader)
    (out_fmt : FrameTransform) : Option SwsContext × FFMPEGVideoReader :=
  match lookupCtx s.sws_ctx_map out_fmt with
  | none => (none, s)
  | some _ =>
    let ctx : SwsContext :=
      { srcWidth := s.dec_width
        srcHeight := s.dec_height
        srcFmt := s.dec_pix_fmt
        dstWidth := out_fmt.width
        dstHeight := out_fmt.height
        dstFmt := out_fmt.fmt
        interp := out_fmt.interp
        id := s.next_ctx_id }
    (some ctx,
      { s with
        sws_ctx_map := updateCtx s.sws_ctx_map out_fmt ctx
        next_ctx_id := s.next_ctx_id + 1 })

/-- The `while (av_read_frame(...) >= 0)` loop of `NextFrame`: read
packets until none remains; packets of other streams are skipped without
touching the decoder; packets of the active stream are submitted to
`avcodec_decode_video2` (logged in `dec_log`); on a completed picture the
source fetches a conversion context for the session's `out_fmt` member
(the assignment on the preceding source line is incomplete) and returns
`true` at once — no conversion into the output array is performed. -/
def readLoop (s : FFMPEGVideoReader) :
    List AVPacket → Bool × FFMPEGVideoReader
  | [] => (false, { s with packets := [] })
  | pkt :: rest =>
    if pkt.stream_index = s.actv_stm_idx then
      let s1 := { s with dec_log := s.dec_log ++ [pkt] }
      if pkt.got_picture then
        let s2 := (s1.GetSwsContext s1.out_fmt).2
        (true, { s2 with packets := rest })
      else readLoop s1 rest
    else readLoop s rest

/-- `FFMPEGVideoReader::NextFrame(NDArray* arr, DLDataType dtype)`: when
no array is supplied, allocate one shaped
`(dec_ctx_->height, dec_ctx_->width, dec_ctx_->channels)` with dtype
`kUInt8` on `kCPU`; then run the packet loop.  The result is the
frame-present flag, the updated session, and the output array (which the
source never writes).  The `dtype` parameter is unused by the source. -/
def FFMPEGVideoReader.NextFrame (s : FFMPEGVideoReader)
    (arr : Option NDArray) (dtype : DLDataType) :
    Bool × FFMPEGVideoReader × NDArray :=
  let theArr :=
    match arr with
    | none =>
      NDArray.Empty [s.dec_height, s.dec_width, s.dec_channels] kUInt8
        DLDeviceType.kCPU
    | some a => a
  let r := readLoop s s.packets
  (r.1, r.2, theArr)

/-- `FFMPEGVideoReader::SetVideoStream(int stream_nb)`, exactly as
written: the source passes `-1` (auto) as the wanted stream to
`av_find_best_stream` regardless of `stream_nb`, aborts (`none`) when no
video stream is found, allocates the decoder context for
`codecs_[st_nb]`, and aborts when `avcodec_open2` fails (modeled: the
stored codec for the chosen stream is NULL).  On success the chosen
best-stream index becomes the active stream. -/
def FFMPEGVideoReader.SetVideoStream (s : FFMPEGVideoReader)
    (stream_nb : Int) : Option FFMPEGVideoReader :=
  let st_nb := av_find_best_stream s.streams (-1)
  if st_nb < 0 then none
  else if s.codecs.getD st_nb.toNat false then
    some { s with actv_stm_idx := st_nb }
  else none

/-- Number of remaining packets that belong to stream `actv` and complete
a picture when decoded: the decodable frames still ahead of the read
position. -/
def countDecodable (actv : Int) (pkts : List AVPacket) : Nat :=
  (pkts.filter (fun p => p.stream_index == actv && p.got_picture)).length

/-- Result of the `(i+1)`-th sequential call to `NextFrame` starting from
session state `s` (no array supplied; the dtype argument is inert). -/
def nthResult (s : FFMPEGVideoReader) : Nat → Bool
  | 0 => (s.NextFrame none kUInt8).1
  | i + 1 => nthResult (s.NextFrame none kUInt8).2.1 i

/-- Concrete descriptor: 64×64 single-channel 8-bit gray, bilinear. -/
def t64 : FrameTransform :=
  ⟨64, 64, 1, 2, AVPixelFormat.AV_PIX_FMT_GRAY8⟩

/-- A second, distinct concrete descriptor: 32×32 RGB 8-bit. -/
def t32 : FrameTransform :=
  ⟨32, 32, 3, 2, AVPixelFormat.AV_PIX_FMT_RGB24⟩

/-- A concrete opened session: one decodable 320×240 YUV420P video
stream, no packets pending, empty conversion-context cache. -/
def baseReader : FFMPEGVideoReader :=
  { packets := []
    streams := [⟨AVMediaType.AVMEDIA_TYPE_VIDEO, true⟩]
    codecs := [true]
    actv_stm_idx := 0
    dec_height := 240
    dec_width := 320
    dec_channels := 3
    dec_pix_fmt := AVPixelFormat.AV_PIX_FMT_YUV420P
    dec_log := []
    out_fmt := t64
    sws_ctx_map := []
    next_ctx_id := 0 }

/-- A context already cached under `t64` (allocation id 0). -/
def ctx0 : SwsContext :=
  ⟨320, 240, AVPixelFormat.AV_PIX_FMT_YUV420P, 64, 64,
    AVPixelFormat.AV_PIX_FMT_GRAY8, 2, 0⟩

/-- `baseReader` with `ctx0` pre-cached under `t64` and the allocation
counter advanced past it. -/
def preloadedReader : FFMPEGVideoReader :=
  { baseReader with sws_ctx_map := [(t64, ctx0)], next_ctx_id := 1 }

/-- A session whose container still holds three packets: one active-stream
packet that completes a picture, one audio packet (stream 1), and one
further active-stream picture packet. -/
def frameReader : FFMPEGVideoReader :=
  { baseReader with packets := [⟨0, true⟩, ⟨1, false⟩, ⟨0, true⟩] }

/-- A caller-supplied output buffer holding recognizable pixel data. -/
def suppliedArr : NDArray :=
  ⟨[64, 64, 1], kUInt8, DLDeviceType.kCPU, [7, 7, 7]⟩

/-- A session over a container with two decodable video streams. -/
def twoVideoReader : FFMPEGVideoReader :=
  { baseReader with
    streams := [⟨AVMediaType.AVMEDIA_TYPE_VIDEO, true⟩,
                ⟨AVMediaType.AVMEDIA_TYPE_VIDEO, true⟩]
    codecs := [true, true] }

/-- A session over a container whose stream 0 is audio and stream 1 is
the only video stream. -/
def audioFirstReader : FFMPEGVideoReader :=
  { baseReader with
    streams := [⟨AVMediaType.AVMEDIA_TYPE_AUDIO, false⟩,
                ⟨AVMediaType.AVMEDIA_TYPE_VIDEO, true⟩]
    codecs := [false, true] }

/-- C1: the claim fails on the code — the branches of `GetSwsContext` are
swapped relative to its own comments.  On a fresh session the first
request for `t64` takes the end-iterator branch: it creates nothing,
caches nothing (the session is returned unchanged) and yields no valid
context, and the second identical request repeats this; when an entry IS
already cached, the code builds a brand-new native context (fresh
allocation id 1, not the cached `ctx0` with id 0) instead of returning
the cached one. -/
theorem getSwsContext_first_request_creates_nothing :
    (baseReader.GetSwsContext t64).1 = none
    ∧ (baseReader.GetSwsContext t64).2 = baseReader
    ∧ ((baseReader.GetSwsContext t64).2.GetSwsContext t64).1 = none
    ∧ (preloadedReader.GetSwsContext t64).1.map SwsContext.id = some 1
    ∧ (preloadedReader.GetSwsContext t64).1 ≠ some ctx0 := by
  refine ⟨rfl, rfl, rfl, rfl, ?_⟩
  decide

/-- C9: the claim fails on the code — after requesting two distinct
descriptors `t64` and `t32` on a fresh session, the cache holds zero
entries (not two): the inverted lookup branch means a first-time request
never inserts. -/
theorem getSwsContext_two_descriptors_cache_empty :
    (((baseReader.GetSwsContext t64).2).GetSwsContext t32).2.sws_ctx_map.length
      = 0 := by
  rfl

/-- C2: the claim fails on the code — on a completed frame `NextFrame`
does return `true` and stops reading (the second picture packet is still
pending), but it never invokes the pixel converter: the caller-supplied
buffer comes back with its bytes untouched (the conversion line of the
source is incomplete and `ToNDArray` is an empty stub). -/
theorem nextFrame_returns_true_without_converting :
    (frameReader.NextFrame (some suppliedArr) kUInt8).1 = true
    ∧ (frameReader.NextFrame (some suppliedArr) kUInt8).2.2 = suppliedArr
    ∧ (frameReader.NextFrame (some suppliedArr) kUInt8).2.1.packets
        = [⟨1, false⟩, ⟨0, true⟩] := by
  exact ⟨rfl, rfl, rfl⟩

/-- C3: the claim fails on the code — `SetVideoStream` never forwards its
`stream_nb` argument (it hardcodes `-1` into `av_find_best_stream`), so
its outcome is identical for every requested index: requesting stream 1
of a two-video-stream container activates stream 0, an out-of-range
request (99) succeeds instead of failing, and requesting the audio
stream 0 of a mixed container succeeds and activates video stream 1. -/
theorem setVideoStream_ignores_requested_index :
    (∀ (s : FFMPEGVideoReader) (a b : Int),
      s.SetVideoStream a = s.SetVideoStream b)
    ∧ (twoVideoReader.SetVideoStream 1).map
        FFMPEGVideoReader.actv_stm_idx = some 0
    ∧ (twoVideoReader.SetVideoStream 99).isSome = true
    ∧ (audioFirstReader.SetVideoStream 0).map
        FFMPEGVideoReader.actv_stm_idx = some 1 := by
  exact ⟨fun s a b => rfl, rfl, rfl, rfl⟩

/-- C7: when `NextFrame` is called without an output buffer it allocates
one shaped (decoder-reported height, width, channel count) with the
default 8-bit-unsigned element type on CPU. -/
theorem nextFrame_default_allocation (s : FFMPEGVideoReader)
    (dtype : DLDataType) :
    (s.NextFrame none dtype).2.2
      = NDArray.Empty [s.dec_height, s.dec_width, s.dec_channels] kUInt8
          DLDeviceType.kCPU := by
  rfl

/-- C10: `NextFrame` is entirely independent of its `dtype` argument —
for every session state, buffer argument and pair of dtypes the full
result (flag, session state, output array) is identical. -/
theorem nextFrame_dtype_noninterference (s : FFMPEGVideoReader)
    (arr : Option NDArray) (d1 d2 : DLDataType) :
    s.NextFrame arr d1 = s.NextFrame arr d2 := by
  rfl

/-- C8: a 16-bit-float descriptor derives exactly the same result as a
16-bit-unsigned one, for both channel counts: RGB48 for 3 channels and
GRAY16 for 1 channel — no float pixel format is used natively. -/
theorem float16_reuses_uint16_layout (h w : Nat) (interp : Int) :
    mkFrameTransform kFloat16 h w 3 interp = mkFrameTransform kUInt16 h w 3 interp
    ∧ mkFrameTransform kFloat16 h w 1 interp = mkFrameTransform kUInt16 h w 1 interp
    ∧ (mkFrameTransform kFloat16 h w 3 interp).map FrameTransform.fmt
        = some AVPixelFormat.AV_PIX_FMT_RGB48
    ∧ (mkFrameTransform kFloat16 h w 1 interp).map FrameTransform.fmt
        = some AVPixelFormat.AV_PIX_FMT_GRAY16 := by
  refine ⟨?_, ?_, ?_, ?_⟩ <;>
    simp [mkFrameTransform, kUInt8, kUInt16, kFloat16]

/-- C6: constructing a frame format descriptor succeeds exactly for
element type in {kUInt8, kUInt16, kFloat16} and channel count in {3, 1},
and on success the derived native layout matches the request: its channel
count equals the requested channel count and its per-channel bit width
equals the element type's bit width. -/
theorem frameTransform_supported_combinations (dtype : DLDataType)
    (h w c : Nat) (interp : Int) (t : FrameTransform) :
    ((mkFrameTransform dtype h w c interp).isSome = true ↔
      ((dtype = kUInt8 ∨ dtype = kUInt16 ∨ dtype = kFloat16)
        ∧ (c = 3 ∨ c = 1)))
    ∧ (mkFrameTransform dtype h w c interp = some t →
        t.height = h ∧ t.width = w ∧ t.channel = c ∧ t.interp = interp
          ∧ t.fmt.channels = c ∧ t.fmt.bitsPerChannel = dtype.bits) := by
  unfold mkFrameTransform
  split_ifs with hc h8 h16 hf
  all_goals constructor
  all_goals
    first
      | (intro ht
         subst ht
         simp_all [AVPixelFormat.channels, AVPixelFormat.bitsPerChannel,
           kUInt8, kUInt16, kFloat16]
         done)
      | (intro ht
         rw [Option.some.injEq] at ht
         subst ht
         simp_all [AVPixelFormat.channels, AVPixelFormat.bitsPerChannel,
           kUInt8, kUInt16, kFloat16]
         done)
      | (intro ht; simp at ht)
      | simp_all

/-- `GetSwsContext` never changes the active stream index. -/
@[simp]
theorem getSwsContext_actv (s : FFMPEGVideoReader) (f : FrameTransform) :
    (s.GetSwsContext f).2.actv_stm_idx = s.actv_stm_idx := by
  unfold FFMPEGVideoReader.GetSwsContext
  rcases hl : lookupCtx s.sws_ctx_map f with _ | ctx <;> simp [hl]

/-- `GetSwsContext` never touches the decoder submission log. -/
@[simp]
theorem getSwsContext_dec_log (s : FFMPEGVideoReader) (f : FrameTransform) :
    (s.GetSwsContext f).2.dec_log = s.dec_log := by
  unfold FFMPEGVideoReader.GetSwsContext
  rcases hl : lookupCtx s.sws_ctx_map f with _ | ctx <;> simp [hl]

/-- `GetSwsContext` never touches the container read position. -/
@[simp]
theorem getSwsContext_packets (s : FFMPEGVideoReader) (f : FrameTransform) :
    (s.GetSwsContext f).2.packets = s.packets := by
  unfold FFMPEGVideoReader.GetSwsContext
  rcases hl : lookupCtx s.sws_ctx_map f with _ | ctx <;> simp [hl]

/-- The loop reports a frame exactly when some remaining active-stream
packet completes a picture. -/
theorem readLoop_fst (pkts : List AVPacket) (s : FFMPEGVideoReader) :
    (readLoop s pkts).1
      = decide (0 < countDecodable s.actv_stm_idx pkts) := by
  induction pkts generalizing s with
  | nil => simp [readLoop, countDecodable]
  | cons pkt rest ih =>
    by_cases h1 : pkt.stream_index = s.actv_stm_idx
    · by_cases h2 : pkt.got_picture
      · simp [readLoop, countDecodable, h1, h2]
      · simpa [readLoop, countDecodable, h1, h2] using
          ih { s with dec_log := s.dec_log ++ [pkt] }
    · simpa [readLoop, countDecodable, h1] using ih s

/-- The loop preserves the active stream index. -/
theorem readLoop_actv (pkts : List AVPacket) (s : FFMPEGVideoReader) :
    (readLoop s pkts).2.actv_stm_idx = s.actv_stm_idx := by
  induction pkts generalizing s with
  | nil => rfl
  | cons pkt rest ih =>
    by_cases h1 : pkt.stream_index = s.actv_stm_idx
    · by_cases h2 : pkt.got_picture
      · simp [readLoop, h1, h2]
      · simpa [readLoop, h1, h2] using
          ih { s with dec_log := s.dec_log ++ [pkt] }
    · simpa [readLoop, h1] using ih s

/-- One pass of the loop consumes exactly one decodable active-stream
packet (when one exists) from the remaining stream. -/
theorem readLoop_count (pkts : List AVPacket) (s : FFMPEGVideoReader) :
    countDecodable s.actv_stm_idx (readLoop s pkts).2.packets
      = countDecodable s.actv_stm_idx pkts - 1 := by
  induction pkts generalizing s with
  | nil => simp [readLoop, countDecodable]
  | cons pkt rest ih =>
    by_cases h1 : pkt.stream_index = s.actv_stm_idx
    · by_cases h2 : pkt.got_picture
      · simp [readLoop, countDecodable, h1, h2]
      · simpa [readLoop, countDecodable, h1, h2] using
          ih { s with dec_log := s.dec_log ++ [pkt] }
    · simpa [readLoop, countDecodable, h1] using ih s

/-- Every packet the loop ever submits to the decoder belongs to the
active stream: the decoder log only grows by active-stream packets. -/
theorem readLoop_dec_log_extends (pkts : List AVPacket)
    (s : FFMPEGVideoReader) :
    ∃ l, (readLoop s pkts).2.dec_log = s.dec_log ++ l
      ∧ l.all (fun p => p.stream_index == s.actv_stm_idx) = true := by
  induction pkts generalizing s with
  | nil => exact ⟨[], by simp [readLoop], rfl⟩
  | cons pkt rest ih =>
    by_cases h1 : pkt.stream_index = s.actv_stm_idx
    · by_cases h2 : pkt.got_picture
      · refine ⟨[pkt], ?_, ?_⟩
        · simp [readLoop, h1, h2]
        · simp [h1]
      · obtain ⟨l, hl, ha⟩ := ih { s with dec_log := s.dec_log ++ [pkt] }
        refine ⟨pkt :: l, ?_, ?_⟩
        · simp only [readLoop, h1, if_pos, h2, if_neg, Bool.false_eq_true,
            ite_false, ite_true]
          rw [hl]
          simp
        · simp only [List.all_cons, Bool.and_eq_true, beq_iff_eq]
          exact ⟨h1, ha⟩
    · obtain ⟨l, hl, ha⟩ := ih s
      exact ⟨l, by simpa [readLoop, h1] using hl, ha⟩

/-- Deleting the non-active-stream packets from the remaining stream
changes neither the loop's reported result nor the decoder log it
produces. -/
theorem readLoop_filter_inactive (pkts : List AVPacket)
    (s : FFMPEGVideoReader) :
    (readLoop s (pkts.filter
        (fun p => p.stream_index == s.actv_stm_idx))).1
      = (readLoop s pkts).1
    ∧ (readLoop s (pkts.filter
        (fun p => p.stream_index == s.actv_stm_idx))).2.dec_log
      = (readLoop s pkts).2.dec_log := by
  induction pkts generalizing s with
  | nil => exact ⟨rfl, rfl⟩
  | cons pkt rest ih =>
    by_cases h1 : pkt.stream_index = s.actv_stm_idx
    · by_cases h2 : pkt.got_picture
      · simp [readLoop, List.filter_cons, h1, h2]
      · simpa [readLoop, List.filter_cons, h1, h2] using
          ih { s with dec_log := s.dec_log ++ [pkt] }
    · simpa [readLoop, List.filter_cons, h1] using ih s

/-- C4: the `(i+1)`-th sequential `NextFrame` call reports a frame iff
`i` is below the number of decodable active-stream frames remaining at
the start — so with exactly `N` decodable frames the calls return `true`
exactly `N` times and `false` on every later call, end-of-stream being a
plain `false` result, idempotently, never an error. -/
theorem nextFrame_true_exactly_n_times (s : FFMPEGVideoReader) (i : Nat) :
    nthResult s i
      = decide (i < countDecodable s.actv_stm_idx s.packets) := by
  induction i generalizing s with
  | zero =>
    show (readLoop s s.packets).1 = _
    exact readLoop_fst s.packets s
  | succ i ih =>
    show nthResult (readLoop s s.packets).2 i = _
    rw [ih, readLoop_actv, readLoop_count, decide_eq_decide]
    omega

/-- C5: packets of non-active streams are inert.  First, everything
`NextFrame` ever submits to the decoder (the growth of the decoder log)
belongs to the active stream — other packets are discarded unsubmitted
and so never change the decode state.  Second, a frame is reported
exactly when some remaining active-stream packet completes a picture, so
non-active packets never cause a reported frame.  Third, deleting every
non-active packet from the remaining stream changes neither the loop's
result nor the decoder log: interleaved foreign packets can neither skip
nor duplicate video frames. -/
theorem nextFrame_inactive_packets_inert (s : FFMPEGVideoReader)
    (arr : Option NDArray) (dtype : DLDataType) :
    (((s.NextFrame arr dtype).2.1.dec_log.drop s.dec_log.length).all
        (fun p => p.stream_index == s.actv_stm_idx) = true)
    ∧ ((s.NextFrame arr dtype).1
        = decide (0 < countDecodable s.actv_stm_idx s.packets))
    ∧ ((readLoop s (s.packets.filter
          (fun p => p.stream_index == s.actv_stm_idx))).1
        = (readLoop s s.packets).1)
    ∧ ((readLoop s (s.packets.filter
          (fun p => p.stream_index == s.actv_stm_idx))).2.dec_log
        = (readLoop s s.packets).2.dec_log) := by
  obtain ⟨l, hl, ha⟩ := readLoop_dec_log_extends s.packets s
  refine ⟨?_, ?_, (readLoop_filter_inactive s.packets s).1,
    (readLoop_filter_inactive s.packets s).2⟩
  · show ((readLoop s s.packets).2.dec_log.drop s.dec_log.length).all _ = true
    rw [hl, List.drop_left]
    exact ha
  · exact readLoop_fst s.packets s

/-- Witness for C6 at a concrete supported input: 480×640 RGB 8-bit. -/
theorem frameTransform_supported_combinations_witness :
    mkFrameTransform kUInt8 480 640 3 2
        = some ⟨480, 640, 3, 2, AVPixelFormat.AV_PIX_FMT_RGB24⟩
    ∧ ((480, 640, 3, 2) = (480, 640, 3, 2)
        ∧ AVPixelFormat.AV_PIX_FMT_RGB24.channels = 3
        ∧ AVPixelFormat.AV_PIX_FMT_RGB24.bitsPerChannel = kUInt8.bits) := by
  have hmk : mkFrameTransform kUInt8 480 640 3 2
      = some ⟨480, 640, 3, 2, AVPixelFormat.AV_PIX_FMT_RGB24⟩ := by decide
  have happ := (frameTransform_supported_combinations kUInt8 480 640 3 2
    ⟨480, 640, 3, 2, AVPixelFormat.AV_PIX_FMT_RGB24⟩).2 hmk
  exact ⟨hmk, rfl, happ.2.2.2.2.1, happ.2.2.2.2.2⟩
